import Mathlib

/-!
Verification development for the sabuhp message-bus core: the Message
envelope and codec wrappers (src/codecs/message_pack.go, src/codecs/gob.go),
the per-topic Mailbox fan-out (src/supabaiza/mailbox_test.go and spec §4.2),
and the SSE streaming client (src/transport/ssepub/seeclient.go).
-/

namespace Sabuhp

/-- Modelled from the spec: the `sabuhp.Message` struct itself is not under
src/ (only its users are).  Fields follow §3 of the spec: `Topic` (canonical
string form), `FromAddr`, `ReplyGroup`, `Payload`/`Bytes` binary bodies,
`Metadata` string map, `Parts` (multipart bodies, transport-layer only),
`Future` (reply-correlation handle, never serialized; modelled opaquely by a
numeric handle), `DeliveryMark` (optional broker-assigned message id). -/
structure Message where
  Topic : String
  FromAddr : String
  ReplyGroup : String
  Payload : List Nat
  Bytes : List Nat
  Metadata : List (String × String)
  Parts : Option (List (List Nat))
  Future : Option Nat
  DeliveryMark : String
deriving Repr, DecidableEq

/-- Modelled from the spec: the wire form produced by the third-party
msgpack/gob serializers (external collaborators, not repository code).  Per
§3 ("`Future`: a reply-correlation handle; never serialized") and §6 ("In all
three, `Parts` and `Future` are excluded" — `Future` by the envelope's codec
tags), the serialized envelope carries every field except `Future`; the wire
bytes are represented by this record of the serialized fields. -/
structure WireEnvelope where
  Topic : String
  FromAddr : String
  ReplyGroup : String
  Payload : List Nat
  Bytes : List Nat
  Metadata : List (String × String)
  Parts : Option (List (List Nat))
  DeliveryMark : String
deriving Repr, DecidableEq

/-- Modelled from the spec: the external serializer writes the envelope's
fields (all but `Future`, see `WireEnvelope`). -/
def serializeEnvelope (m : Message) : WireEnvelope :=
  { Topic := m.Topic
    FromAddr := m.FromAddr
    ReplyGroup := m.ReplyGroup
    Payload := m.Payload
    Bytes := m.Bytes
    Metadata := m.Metadata
    Parts := m.Parts
    DeliveryMark := m.DeliveryMark }

/-- Modelled from the spec: the external deserializer reads the serialized
fields back; the unserialized `Future` field is left at its zero value
(`nil`). -/
def deserializeEnvelope (w : WireEnvelope) : Message :=
  { Topic := w.Topic
    FromAddr := w.FromAddr
    ReplyGroup := w.ReplyGroup
    Payload := w.Payload
    Bytes := w.Bytes
    Metadata := w.Metadata
    Parts := w.Parts
    Future := none
    DeliveryMark := w.DeliveryMark }

/-- src/codecs/message_pack.go, Encode body before serialization: the single
statement `message.Parts = nil` on the (by-value) parameter. -/
def stripForEncodeMsgPack (message : Message) : Message :=
  { message with Parts := none }

/-- src/codecs/message_pack.go: `Encode(message)` sets `message.Parts = nil`
on its by-value copy and hands the whole envelope to the msgpack encoder. -/
def MessageMsgPackCodec.Encode (message : Message) : Except String WireEnvelope :=
  .ok (serializeEnvelope (stripForEncodeMsgPack message))

/-- src/codecs/message_pack.go: `Decode(b)` deserializes the envelope and
then sets `message.Future = nil`. -/
def MessageMsgPackCodec.Decode (b : WireEnvelope) : Except String Message :=
  .ok { deserializeEnvelope b with Future := none }

/-- src/codecs/gob.go, Encode body before serialization: the single
statement `message.Parts = nil` on the (by-value) parameter. -/
def stripForEncodeGob (message : Message) : Message :=
  { message with Parts := none }

/-- src/codecs/gob.go: `Encode(message)` sets `message.Parts = nil` on its
by-value copy and hands the whole envelope to the gob encoder. -/
def MessageGobCodec.Encode (message : Message) : Except String WireEnvelope :=
  .ok (serializeEnvelope (stripForEncodeGob message))

/-- src/codecs/gob.go: `Decode(b)` deserializes the envelope and then sets
`message.Future = nil`. -/
def MessageGobCodec.Decode (b : WireEnvelope) : Except String Message :=
  .ok { deserializeEnvelope b with Future := none }

/-- The Go call frame of `codec.Encode(m)`: Go passes `sabuhp.Message` by
value, so the callee's parameter `message` starts as a copy of the caller's
variable, and a field assignment on it acts on the copy only.  The frame
tracks both. -/
structure EncodeFrame where
  callerVar : Message
  message : Message
deriving Repr, DecidableEq

/-- src/codecs/message_pack.go Encode, embedded statement by statement over
an explicit call frame: the parameter copy is made, `message.Parts = nil`
writes the copy's field, the copy is serialized.  Returns the encode result
paired with the caller's variable after the call returns. -/
def MessageMsgPackCodec.EncodeCall (caller : Message) :
    Except String WireEnvelope × Message :=
  let f0 : EncodeFrame := { callerVar := caller, message := caller }
  let f1 : EncodeFrame := { f0 with message := { f0.message with Parts := none } }
  (.ok (serializeEnvelope f1.message), f1.callerVar)

/-- src/codecs/gob.go Encode, embedded statement by statement over an
explicit call frame (see `MessageMsgPackCodec.EncodeCall`). -/
def MessageGobCodec.EncodeCall (caller : Message) :
    Except String WireEnvelope × Message :=
  let f0 : EncodeFrame := { callerVar := caller, message := caller }
  let f1 : EncodeFrame := { f0 with message := { f0.message with Parts := none } }
  (.ok (serializeEnvelope f1.message), f1.callerVar)

/-- A concrete envelope with every field populated, used to exercise the
codecs at a specific input. -/
def sampleFullMessage : Message :=
  { Topic := "why"
    FromAddr := "me"
    ReplyGroup := "*"
    Payload := [1, 2, 3]
    Bytes := [121, 101, 115]
    Metadata := [("k", "v")]
    Parts := some [[7, 8], [9]]
    Future := some 7
    DeliveryMark := "mark-1" }

/-- Modelled from the spec: a Mailbox subscriber entry.  The supabaiza
Mailbox implementation is not under src/ (only its tests are); §3 gives the
entry as `{id, handler, channel, alive}` where the Channel holds a weak
back-reference by id and `Close` marks `alive=false`.  The handler itself is
identified by the entry id: a delivery to the entry invokes that id's
handler. -/
structure SubscriberEntry where
  id : Nat
  alive : Bool
deriving Repr, DecidableEq

/-- Modelled from the spec: the supabaiza Mailbox (§4.2), whose source is
not under src/.  A per-topic queue owning an ordered sequence of subscriber
entries, a capacity bound, and a running flag (`New → Running` via `Start`).
`nextId` allocates fresh subscriber ids for `Add`. -/
structure Mailbox where
  topic : String
  capacity : Nat
  running : Bool
  subs : List SubscriberEntry
  nextId : Nat
deriving Repr, DecidableEq

/-- Modelled from the spec: `NewMailbox(ctx, topic, logger, capacity, ...)`
creates an empty, not-yet-started mailbox for the topic. -/
def NewMailbox (topic : String) (capacity : Nat) : Mailbox :=
  { topic := topic, capacity := capacity, running := false, subs := [], nextId := 0 }

/-- Modelled from the spec: `Start()` is idempotent and launches the
consumer (`New → Running`). -/
def Mailbox.Start (mb : Mailbox) : Mailbox :=
  { mb with running := true }

/-- Modelled from the spec: `Add(handler) → Channel` appends a fresh live
subscriber entry and returns the Channel, identified here by the fresh
subscriber id the Channel weakly references. -/
def Mailbox.Add (mb : Mailbox) : Mailbox × Nat :=
  ({ mb with
      subs := mb.subs ++ [{ id := mb.nextId, alive := true }]
      nextId := mb.nextId + 1 },
    mb.nextId)

/-- Modelled from the spec: `channel.Close()` marks the referenced entry
dead (`alive=false`); the Mailbox compacts lazily on the next snapshot. -/
def Mailbox.closeChannel (mb : Mailbox) (cid : Nat) : Mailbox :=
  { mb with
      subs := mb.subs.map fun s => if s.id = cid then { s with alive := false } else s }

/-- Modelled from the spec: `Deliver(msg)` enqueues the message and the
consumer then takes a snapshot of the live subscriber list and invokes each
live handler in registration order with the message (§4.2 delivery
algorithm).  In `New`/`Stopping`/`Stopped` states `Deliver` does not reach
the handlers (buffering or a closed-mailbox error); the returned list
records the handler invocations as (subscriber id, delivered message)
pairs. -/
def Mailbox.Deliver (mb : Mailbox) (m : Message) : Except String (List (Nat × Message)) :=
  if mb.running then
    .ok (((mb.subs.filter fun s => s.alive).map fun s => (s.id, m)))
  else
    .error "mailbox not running"

/-- The S1 scenario message of the spec (§8): delivered to mailbox "hello"
by the tests in src/supabaiza/mailbox_test.go. -/
def helloMessage : Message :=
  { Topic := "hello"
    FromAddr := "yay"
    ReplyGroup := ""
    Payload := [97, 108, 101, 120]
    Bytes := []
    Metadata := []
    Parts := none
    Future := none
    DeliveryMark := "" }

/-- The S1 mailbox: topic "hello", capacity 1, started, three subscribers
added in order (ids 0, 1, 2). -/
def helloMailbox3 : Mailbox :=
  ((((NewMailbox "hello" 1).Start.Add).1.Add).1.Add).1

/-- Modelled from the spec: the fixed stream-header marker line (§4.5 "a
line beginning with a fixed stream header marks the start of an event").
Its literal value is defined in a ssepub package file not under src/; no
claim depends on the value. -/
def SSEStreamHeader : String := "sabuhp_streaming"

/-- Modelled from the spec (§6): the request header carrying last-seen event
ids on resume, `Last-Event-Id-List: id1;id2;…`.  The constant itself lives
in a ssepub package file not under src/. -/
def LastEventIdListHeader : String := "Last-Event-Id-List"

/-- Whether the first character list starts with the second. -/
def listHasHead : List Char → List Char → Bool
  | _, [] => true
  | [], _ :: _ => false
  | a :: as, b :: bs => a == b && listHasHead as bs

/-- `bytes.TrimPrefix` / `strings.TrimPrefix`: remove one leading occurrence
of `pre` when present. -/
def stripHead (s pre : String) : String :=
  if listHasHead s.data pre.data then String.mk (s.data.drop pre.data.length) else s

/-- `strings.TrimSuffix`: remove one trailing occurrence of `suf` when
present. -/
def stripTail (s suf : String) : String :=
  if listHasHead s.data.reverse suf.data.reverse then
    String.mk ((s.data.reverse.drop suf.data.length).reverse)
  else s

/-- The whitespace characters relevant to the modelled streams (the events
on the wire are ASCII; Go's `strings.TrimSpace` cuts these and further
Unicode space, which never occurs here). -/
def isSpaceChar (c : Char) : Bool :=
  c == ' ' || c == '\t' || c == '\n' || c == '\r'

/-- `strings.TrimSpace`: remove leading and trailing whitespace. -/
def trimSpace (s : String) : String :=
  String.mk (((s.data.dropWhile isSpaceChar).reverse.dropWhile isSpaceChar).reverse)

/-- One observable step of the `run` read loop of
src/transport/ssepub/seeclient.go: either the top-of-loop `select` sees
`ctx.Done()`, or `reader.ReadString` yields a full line (with its trailing
newline), or `ReadString` returns an error (EOF/disconnect), or — the
request carries `sc.ctx`, so a cancellation while the goroutine is blocked
in `ReadString` aborts the read — `ReadString` returns an error with the
context already cancelled, before the next top-of-loop `select` could
observe `Done`.  The source's `lineErr != nil` branch cannot distinguish
the last two. -/
inductive SSEInput where
  | cancel
  | line (s : String)
  | readFail
  | readFailCancelled
deriving Repr, DecidableEq

/-- How the `doLoop` of `run` was left: via the `ctx.Done()` branch
(`closedOps = true`), via a read error, or via the `break doLoop` on a codec
decode error. -/
inductive RunExit where
  | cancelled
  | readFailed
  | decodeFailed
deriving Repr, DecidableEq

/-- The state of `run` when `doLoop` exits: the exit reason, the messages
passed to the handler in order, the number of handler errors logged, the
unconsumed rest of the input stream, the framing state (`decoding`, the
`data` accumulator), the client's `lastId` field, and whether the ambient
context had been cancelled by the time the loop exited (true for the
`ctx.Done()` branch and for a read aborted by cancellation). -/
structure RunResult where
  exit : RunExit
  handled : List Message
  handlerErrLogs : Nat
  leftover : List SSEInput
  decoding : Bool
  data : String
  lastId : Option String
  ctxCancelled : Bool
deriving Repr, DecidableEq

/-- src/transport/ssepub/seeclient.go lines 185-256, the `doLoop` of `run`,
over an explicit input stream.  Per iteration: the `select` observes
cancellation first (`.cancel`), a read error breaks the loop (`.readFail`,
and an exhausted stream reads as EOF; `.readFailCancelled` — a read aborted
by context cancellation — takes the same `lineErr != nil` branch, with
`closedOps` left false, since the source cannot tell the errors apart), and
a read line is processed exactly as in the source: a blank line while `decoding` ends the event — the `data`
accumulator (when non-empty) is stripped of a literal `data:` and one
optional space, decoded via the codec, and on success handed to the handler
(a handler error is only logged); a decode error logs and breaks `doLoop`.
A line equal (after `TrimSpace`) to the stream header sets `decoding` and
resets `data`; any other line is appended to `data` after trimming its
trailing (and a leading) newline.  The client's `lastId` field is threaded
through unchanged: no statement of `run` assigns it. -/
def runLoop (decode : String → Except String Message) (handle : Message → Option String)
    (lastId : Option String) :
    Bool → String → List Message → Nat → List SSEInput → RunResult
  | decoding, data, handled, errLogs, [] =>
      { exit := .readFailed, handled := handled, handlerErrLogs := errLogs,
        leftover := [], decoding := decoding, data := data, lastId := lastId,
        ctxCancelled := false }
  | decoding, data, handled, errLogs, .cancel :: rest =>
      { exit := .cancelled, handled := handled, handlerErrLogs := errLogs,
        leftover := rest, decoding := decoding, data := data, lastId := lastId,
        ctxCancelled := true }
  | decoding, data, handled, errLogs, .readFail :: rest =>
      { exit := .readFailed, handled := handled, handlerErrLogs := errLogs,
        leftover := rest, decoding := decoding, data := data, lastId := lastId,
        ctxCancelled := false }
  | decoding, data, handled, errLogs, .readFailCancelled :: rest =>
      { exit := .readFailed, handled := handled, handlerErrLogs := errLogs,
        leftover := rest, decoding := decoding, data := data, lastId := lastId,
        ctxCancelled := true }
  | decoding, data, handled, errLogs, .line s :: rest =>
      if s = "\n" then
        if decoding then
          if data ≠ "" then
            match decode (stripHead (stripHead data "data:") " ") with
            | .error _ =>
                { exit := .decodeFailed, handled := handled, handlerErrLogs := errLogs,
                  leftover := rest, decoding := false, data := data, lastId := lastId,
                  ctxCancelled := false }
            | .ok msg =>
                runLoop decode handle lastId false data (handled ++ [msg])
                  (errLogs + if (handle msg).isSome then 1 else 0) rest
          else
            runLoop decode handle lastId false data handled errLogs rest
        else
          runLoop decode handle lastId decoding data handled errLogs rest
      else
        if trimSpace s = SSEStreamHeader then
          runLoop decode handle lastId true "" handled errLogs rest
        else
          runLoop decode handle lastId decoding
            (data ++ stripHead (stripTail s "\n") "\n") handled errLogs rest

/-- The observable outcome of one `run` call (seeclient.go lines 178-265):
the loop result plus what the tail of `run` did — on `closedOps` it calls
`waiter.Done()`, closes the response body and returns; otherwise it invokes
`reconnect()` (the body stays open and the waiter is not signalled by this
call). -/
structure RunOutcome where
  res : RunResult
  bodyClosed : Bool
  waiterDone : Bool
  reconnectInvoked : Bool
deriving Repr, DecidableEq

/-- src/transport/ssepub/seeclient.go `run`: executes `doLoop` from the
initial framing state and then the `if closedOps` tail. -/
def SSEClient.runOn (decode : String → Except String Message)
    (handle : Message → Option String) (lastId : Option String)
    (inputs : List SSEInput) : RunOutcome :=
  let r := runLoop decode handle lastId false "" [] 0 inputs
  if r.exit = .cancelled then
    { res := r, bodyClosed := true, waiterDone := true, reconnectInvoked := false }
  else
    { res := r, bodyClosed := false, waiterDone := false, reconnectInvoked := true }

/-- How the retry loop of `reconnect` ended: a request succeeded on the
given 0-based attempt (a fresh `run` goroutine is spawned), or the loop
logged the request error and returned after the given total number of
failed attempts (without signalling the waiter). -/
inductive ReconnectOutcome where
  | connected (attempt : Nat)
  | exhausted (failedAttempts : Nat)
deriving Repr, DecidableEq

/-- src/transport/ssepub/seeclient.go lines 275-306, the retry loop of
`reconnect`.  `succeed n` tells whether the `n`-th `DoRequest` succeeds.
The source counts `retryCount` upward from 0 and, on a failed attempt,
retries while `retryCount < maxRetries` (incrementing it) and otherwise logs
and returns; here `remaining = maxRetries - retryCount` counts the same
iterations downward so the recursion is structural, and `attempt` numbers
the requests from 0. -/
def reconnectLoop (succeed : Nat → Bool) : Nat → Nat → ReconnectOutcome
  | attempt, remaining =>
      if succeed attempt then .connected attempt
      else
        match remaining with
        | 0 => .exhausted (attempt + 1)
        | r + 1 => reconnectLoop succeed (attempt + 1) r

/-- src/transport/ssepub/seeclient.go lines 268-273: the headers of every
reconnect request — `Cache-Control`, `Accept`, and the last-event-id header
only when the client's `lastId` field is non-nil. -/
def SSEClient.reconnectHeaders (lastId : Option String) : List (String × String) :=
  [("Cache-Control", "no-cache"), ("Accept", "text/event-stream")] ++
    match lastId with
    | some x => [(LastEventIdListHeader, x)]
    | none => []

/-- The observable result of `reconnect`: the headers it would send on its
requests and how its retry loop ended. -/
structure ReconnectResult where
  headers : List (String × String)
  outcome : ReconnectOutcome
deriving Repr, DecidableEq

/-- src/transport/ssepub/seeclient.go `reconnect`: builds the headers from
the client's `lastId`, then runs the retry loop from `retryCount = 0`. -/
def SSEClient.reconnect (lastId : Option String) (succeed : Nat → Bool)
    (maxRetries : Nat) : ReconnectResult :=
  { headers := SSEClient.reconnectHeaders lastId
    outcome := reconnectLoop succeed 0 maxRetries }

/-- One segment of the managing goroutine's life: a `run` call and, when the
loop exited without cancellation, the `reconnect` that follows.
`chainEnded` says no further goroutine continues after this segment (the
cancelled path, or reconnect exhaustion); `waiterSignalled` says
`waiter.Done()` was called during this segment (only the cancelled path does
so — `reconnect` returns without signalling on exhaustion, and on success it
hands off to a new `run`). -/
structure SegmentOutcome where
  runOut : RunOutcome
  reconnectOut : Option ReconnectResult
  chainEnded : Bool
  waiterSignalled : Bool
deriving Repr, DecidableEq

/-- Composes `run` with the `reconnect` it invokes on a `closedOps = false`
exit (seeclient.go lines 258-265).  `reconnect` reads the same `lastId`
field the loop threaded through, and its requests are issued with `sc.ctx`
(`utils.DoRequest(sc.ctx, ...)`, lines 281-288): once the context has been
cancelled every such request errors, so the attempt oracle is forced to
fail from then on. -/
def SSEClient.runSegment (decode : String → Except String Message)
    (handle : Message → Option String) (lastId : Option String)
    (inputs : List SSEInput) (succeed : Nat → Bool) (maxRetries : Nat) :
    SegmentOutcome :=
  let o := SSEClient.runOn decode handle lastId inputs
  if o.reconnectInvoked then
    let attempts := if o.res.ctxCancelled then fun _ => false else succeed
    let rc := SSEClient.reconnect o.res.lastId attempts maxRetries
    { runOut := o
      reconnectOut := some rc
      chainEnded := match rc.outcome with
        | .connected _ => false
        | .exhausted _ => true
      waiterSignalled := false }
  else
    { runOut := o, reconnectOut := none, chainEnded := true, waiterSignalled := true }

/-- What a call to `Close` (seeclient.go lines 172-176) observably does:
`sc.canceler()` cancels the context (idempotent), `sc.waiter.Wait()` returns
only once the managing goroutine has called `waiter.Done()`, and then `nil`
is returned.  `returned = some r` means the call returns with error `r`;
`returned = none` means `Wait` blocks forever because the goroutine never
signals. -/
structure CloseResult where
  cancelled : Bool
  returned : Option (Option String)
deriving Repr, DecidableEq

/-- src/transport/ssepub/seeclient.go `Close`, given whether the managing
goroutine (ever) signals the waiter and the current cancellation flag. -/
def SSEClient.CloseModel (goroutineSignals : Bool) (_cancelled : Bool) : CloseResult :=
  { cancelled := true
    returned := if goroutineSignals then some none else none }

/-- A message whose broker-assigned id (`DeliveryMark`) is "X", as decoded
from the SSE stream in the resume scenario of spec §8 property 7. -/
def sseMessageX : Message :=
  { Topic := "t"
    FromAddr := "f"
    ReplyGroup := ""
    Payload := []
    Bytes := []
    Metadata := []
    Parts := none
    Future := none
    DeliveryMark := "X" }

/-- A codec decoding the frame body "m1" to `sseMessageX` and failing on
everything else. -/
def decodeX : String → Except String Message :=
  fun s => if s = "m1" then .ok sseMessageX else .error "bad frame"

/-- A handler that always succeeds. -/
def handleOk : Message → Option String := fun _ => none

/-- A codec that fails on every frame. -/
def noDecode : String → Except String Message := fun _ => .error "bad frame"

/-- A stream carrying one well-formed event (header, one data line, blank
line) and then a read error (disconnect/EOF). -/
def resumeInputs : List SSEInput :=
  [.line (SSEStreamHeader ++ "\n"), .line "data: m1\n", .line "\n", .readFail]

/-- A connection attempt oracle on which every `DoRequest` fails. -/
def allFail : Nat → Bool := fun _ => false

/-- A stream whose very first read errors (immediate disconnect). -/
def failInputs : List SSEInput := [.readFail]

/-- The goroutine segment for an immediate disconnect followed by reconnect
attempts that all fail, with `maxRetries = 1`. -/
def exhaustSegment : SegmentOutcome :=
  SSEClient.runSegment noDecode handleOk none failInputs allFail 1

/-- The goroutine segment for an immediate disconnect followed by reconnect
attempts that all fail, with `maxRetries = 2`. -/
def exhaustSegment2 : SegmentOutcome :=
  SSEClient.runSegment noDecode handleOk none failInputs allFail 2

/-- The segment for the resume scenario: one decoded event, then
disconnect; the reconnect request succeeds immediately. -/
def resumeSegment : SegmentOutcome :=
  SSEClient.runSegment decodeX handleOk none resumeInputs (fun _ => true) 3

/-- A message decoded from the frame body "good". -/
def msgGood : Message :=
  { Topic := "g"
    FromAddr := ""
    ReplyGroup := ""
    Payload := []
    Bytes := []
    Metadata := []
    Parts := none
    Future := none
    DeliveryMark := "G" }

/-- A codec decoding the frame body "good" to `msgGood` and failing on
everything else. -/
def decodeGood : String → Except String Message :=
  fun s => if s = "good" then .ok msgGood else .error "bad frame"

/-- A stream carrying an undecodable event followed, on the same
connection, by a decodable one and then a cancellation. -/
def twoEventInputs : List SSEInput :=
  [.line (SSEStreamHeader ++ "\n"), .line "data: bad\n", .line "\n",
   .line (SSEStreamHeader ++ "\n"), .line "data: good\n", .line "\n", .cancel]

/-- A stream carrying a single undecodable event and then a cancellation. -/
def badEventInputs : List SSEInput :=
  [.line (SSEStreamHeader ++ "\n"), .line "data: bad\n", .line "\n", .cancel]

/-- A stream with one ordinary line, after which the context is cancelled
while the goroutine is blocked in `ReadString`: the read aborts with an
error before the top-of-loop `select` can observe `Done`. -/
def cancelDuringReadInputs : List SSEInput := [.line "x\n", .readFailCancelled]

/-- The goroutine segment for a cancellation that aborts the blocked read,
with `maxRetries = 1`.  The attempt oracle would grant every request, but
the cancelled context makes each `DoRequest` fail regardless. -/
def cancelDuringReadSegment : SegmentOutcome :=
  SSEClient.runSegment noDecode handleOk none cancelDuringReadInputs (fun _ => true) 1

/-- After `Close` marks an entry dead, the consumer's live snapshot equals
the original subscriber list with the closed id removed (all entries live
beforehand). -/
theorem filterAliveAfterClose (subs : List SubscriberEntry) (cid : Nat)
    (halive : ∀ s ∈ subs, s.alive = true) :
    ((subs.map fun s => if s.id = cid then { s with alive := false } else s).filter
        fun s => s.alive)
      = subs.filter fun s => s.id != cid := by
  induction subs with
  | nil => rfl
  | cons a t ih =>
    have ha : a.alive = true := halive a (by simp)
    have ht : ∀ s ∈ t, s.alive = true := fun s hs => halive s (by simp [hs])
    by_cases h : a.id = cid
    · simp [List.filter_cons, h, ih ht]
    · simp [List.filter_cons, h, ha, ih ht]

/-- Splitting a subscriber list by one id accounts for its whole length. -/
theorem lengthFilterSplit (l : List SubscriberEntry) (cid : Nat) :
    (l.filter fun s => s.id != cid).length + (l.filter fun s => s.id == cid).length
      = l.length := by
  induction l with
  | nil => rfl
  | cons a t ih =>
    by_cases h : a.id = cid
    · simp [List.filter_cons, h]
      omega
    · simp [List.filter_cons, h]
      omega

/-- C1: for a Mailbox with N live subscribers registered via Add, a single
`Deliver(m)` that returns no error results in exactly N handler
invocations, each invoked with a message equal to m. -/
theorem mailbox_deliver_fanout (mb : Mailbox) (m : Message)
    (h : mb.running = true) :
    ∃ l, mb.Deliver m = .ok l ∧
      l.length = (mb.subs.filter fun s => s.alive).length ∧
      ∀ p ∈ l, p.2 = m := by
  refine ⟨(mb.subs.filter fun s => s.alive).map fun s => (s.id, m), ?_, ?_, ?_⟩
  · simp [Mailbox.Deliver, h]
  · simp
  · intro p hp
    simp only [List.mem_map] at hp
    obtain ⟨s, _, rfl⟩ := hp
    rfl

/-- Witness for C1 at the S1 scenario: mailbox "hello", capacity 1, three
live subscribers, delivering the `{Topic:"hello", From:"yay",
Payload:"alex"}` message yields three invocations. -/
theorem mailbox_deliver_fanout_witness :
    helloMailbox3.running = true ∧
    (∃ l, helloMailbox3.Deliver helloMessage = .ok l ∧
      l.length = (helloMailbox3.subs.filter fun s => s.alive).length ∧
      ∀ p ∈ l, p.2 = helloMessage) ∧
    (helloMailbox3.subs.filter fun s => s.alive).length = 3 :=
  ⟨rfl, mailbox_deliver_fanout helloMailbox3 helloMessage rfl, by decide⟩

/-- C2: closing subscriber `cid` of a mailbox whose N subscribers are all
live (and on which `cid` identifies exactly one registration, as Add
guarantees) makes the next `Deliver` invoke exactly the remaining N−1
handlers, never the closed one, each with the delivered message — at
whatever position the closed subscriber sits. -/
theorem mailbox_close_isolation (mb : Mailbox) (cid : Nat) (m : Message)
    (hrun : mb.running = true)
    (halive : ∀ s ∈ mb.subs, s.alive = true)
    (hone : (mb.subs.filter fun s => s.id == cid).length = 1) :
    ∃ l, (mb.closeChannel cid).Deliver m = .ok l ∧
      l.length + 1 = mb.subs.length ∧
      ∀ p ∈ l, p.1 ≠ cid ∧ p.2 = m := by
  refine ⟨(mb.subs.filter fun s => s.id != cid).map fun s => (s.id, m), ?_, ?_, ?_⟩
  · simp [Mailbox.Deliver, Mailbox.closeChannel, hrun,
      filterAliveAfterClose mb.subs cid halive]
  · have hsplit := lengthFilterSplit mb.subs cid
    simp only [List.length_map]
    omega
  · intro p hp
    simp only [List.mem_map] at hp
    obtain ⟨s, hs, rfl⟩ := hp
    have hmem := List.mem_filter.mp hs
    refine ⟨?_, rfl⟩
    simpa using hmem.2

/-- Witness for C2 at the S2 scenario: three live subscribers (ids 0, 1,
2), the middle channel (id 1) closed, delivering again invokes exactly the
two surviving handlers. -/
theorem mailbox_close_isolation_witness :
    (helloMailbox3.running = true ∧
      (∀ s ∈ helloMailbox3.subs, s.alive = true) ∧
      (helloMailbox3.subs.filter fun s => s.id == 1).length = 1) ∧
    (∃ l, (helloMailbox3.closeChannel 1).Deliver helloMessage = .ok l ∧
      l.length + 1 = helloMailbox3.subs.length ∧
      ∀ p ∈ l, p.1 ≠ 1 ∧ p.2 = helloMessage) :=
  ⟨⟨rfl, by decide, by decide⟩,
    mailbox_close_isolation helloMailbox3 1 helloMessage rfl (by decide) (by decide)⟩

/-- C3: for every Message and both codec implementations (msgpack, gob),
`Decode(Encode(m))` succeeds and returns `m` with `Parts = nil` and
`Future = nil`; every other field round-trips exactly. -/
theorem codec_roundtrip (m : Message) :
    (MessageMsgPackCodec.Encode m).bind MessageMsgPackCodec.Decode
        = .ok { m with Parts := none, Future := none } ∧
    (MessageGobCodec.Encode m).bind MessageGobCodec.Decode
        = .ok { m with Parts := none, Future := none } :=
  ⟨rfl, rfl⟩

/-- C4 counterexample: at `sampleFullMessage` (whose `Future` is `some 7`),
the envelope each codec hands to its serializer — `Encode`'s by-value copy
after its only assignment `message.Parts = nil` — still carries
`Future = some 7`: `Future` is not stripped (set to nil) before
serialization. -/
theorem codec_encode_future_not_stripped :
    MessageMsgPackCodec.Encode sampleFullMessage
        = .ok (serializeEnvelope (stripForEncodeMsgPack sampleFullMessage)) ∧
    MessageGobCodec.Encode sampleFullMessage
        = .ok (serializeEnvelope (stripForEncodeGob sampleFullMessage)) ∧
    (stripForEncodeMsgPack sampleFullMessage).Future = some 7 ∧
    (stripForEncodeGob sampleFullMessage).Future = some 7 ∧
    (stripForEncodeMsgPack sampleFullMessage).Parts = none ∧
    (stripForEncodeGob sampleFullMessage).Parts = none :=
  ⟨rfl, rfl, rfl, rfl, rfl, rfl⟩

/-- C4 amended: for every Message and both codec implementations, `Encode`
serializes an envelope in which `Parts` — and `Parts` only — has been
stripped before serialization; `Future` is left untouched on the envelope
(the serialized wire form omits it, and `Decode` clears it). -/
theorem codec_encode_strips_parts (m : Message) :
    MessageMsgPackCodec.Encode m = .ok (serializeEnvelope { m with Parts := none }) ∧
    MessageGobCodec.Encode m = .ok (serializeEnvelope { m with Parts := none }) ∧
    ({ m with Parts := none } : Message).Future = m.Future :=
  ⟨rfl, rfl, rfl⟩

/-- C9: `Encode` never mutates the caller's Message: Go passes the envelope
by value, the callee's single assignment `message.Parts = nil` writes the
copy, and after the call the caller's variable — every field, `Parts` and
`Future` included — is unchanged, in both codec implementations; the result
is exactly `Encode` of the original value. -/
theorem codec_encode_preserves_caller (m : Message) :
    (MessageMsgPackCodec.EncodeCall m).2 = m ∧
    (MessageGobCodec.EncodeCall m).2 = m ∧
    (MessageMsgPackCodec.EncodeCall m).1 = MessageMsgPackCodec.Encode m ∧
    (MessageGobCodec.EncodeCall m).1 = MessageGobCodec.Encode m :=
  ⟨rfl, rfl, rfl, rfl⟩

/-- C5 failing input: the client decodes one message whose id
(`DeliveryMark`) is "X" and the stream then disconnects; `run` never
assigns the client's `lastId`, so the reconnect request carries only the
two base headers and no `Last-Event-Id-List` at all. -/
theorem sse_reconnect_missing_last_id :
    resumeSegment.runOut.res.handled = [sseMessageX] ∧
    sseMessageX.DeliveryMark = "X" ∧
    resumeSegment.runOut.res.lastId = none ∧
    resumeSegment.reconnectOut
        = some { headers := [("Cache-Control", "no-cache"),
                             ("Accept", "text/event-stream")],
                 outcome := .connected 0 } ∧
    ∀ p ∈ SSEClient.reconnectHeaders none, p.1 ≠ LastEventIdListHeader := by
  refine ⟨rfl, rfl, rfl, rfl, ?_⟩
  decide

/-- C6 failing input: `maxRetries = 1`, the stream read fails immediately
and every reconnect attempt fails; the retry loop terminates only after 2
(= maxRetries + 1) failed attempts and the goroutine chain ends without
ever calling `waiter.Done()`, so `Wait()` never returns. -/
theorem sse_retry_exhaustion_leaks_waiter :
    exhaustSegment.reconnectOut
        = some { headers := [("Cache-Control", "no-cache"),
                             ("Accept", "text/event-stream")],
                 outcome := .exhausted 2 } ∧
    exhaustSegment.chainEnded = true ∧
    exhaustSegment.waiterSignalled = false := by
  refine ⟨rfl, rfl, rfl⟩

/-- C7 failing input: the context is cancelled while the read loop is
blocked in `ReadString` — the request carries `sc.ctx`, so the read aborts
with an error before the next top-of-loop `select` can observe `Done`.
`run` then takes the `lineErr` branch with `closedOps = false`: the
response body is not closed, `reconnect` is invoked, and — since every
`DoRequest` on the cancelled context fails — two (= maxRetries + 1)
further request attempts are issued after cancellation before the
goroutine returns without signalling the waiter. -/
theorem sse_cancel_during_read_reconnects :
    cancelDuringReadSegment.runOut.res.ctxCancelled = true ∧
    cancelDuringReadSegment.runOut.res.exit = .readFailed ∧
    cancelDuringReadSegment.runOut.bodyClosed = false ∧
    cancelDuringReadSegment.runOut.reconnectInvoked = true ∧
    cancelDuringReadSegment.reconnectOut
        = some { headers := [("Cache-Control", "no-cache"),
                             ("Accept", "text/event-stream")],
                 outcome := .exhausted 2 } ∧
    cancelDuringReadSegment.waiterSignalled = false := by
  refine ⟨rfl, rfl, rfl, rfl, rfl, rfl⟩

/-- C8 counterexample: on a stream carrying an undecodable event followed
on the same connection by a decodable one, the decode error exits the read
loop (`break doLoop`): the handler is never invoked for the later event,
the rest of the stream is left unconsumed, and `reconnect` is invoked —
the loop does not continue consuming events on the same connection. -/
theorem sse_decode_error_aborts_loop :
    (SSEClient.runOn decodeGood handleOk none twoEventInputs).res.exit = .decodeFailed ∧
    (SSEClient.runOn decodeGood handleOk none twoEventInputs).res.handled = [] ∧
    (SSEClient.runOn decodeGood handleOk none twoEventInputs).res.leftover
        = [.line (SSEStreamHeader ++ "\n"), .line "data: good\n", .line "\n", .cancel] ∧
    (SSEClient.runOn decodeGood handleOk none twoEventInputs).reconnectInvoked = true := by
  refine ⟨rfl, rfl, rfl, rfl⟩

/-- C8 amended: a codec decode failure logs the offending frame and aborts
the current read loop; the client then invokes `reconnect` (a fresh
request, on whose connection a new `run` starts with fresh framing state) —
the body is not closed and the waiter not signalled by the aborted run. -/
theorem sse_decode_error_reconnects (decode : String → Except String Message)
    (handle : Message → Option String) (lastId : Option String)
    (inputs : List SSEInput)
    (h : (runLoop decode handle lastId false "" [] 0 inputs).exit = .decodeFailed) :
    (SSEClient.runOn decode handle lastId inputs).reconnectInvoked = true ∧
    (SSEClient.runOn decode handle lastId inputs).bodyClosed = false ∧
    (SSEClient.runOn decode handle lastId inputs).waiterDone = false := by
  simp [SSEClient.runOn, h]

/-- Witness for the amended C8: a single undecodable event aborts the loop
and leads to reconnect. -/
theorem sse_decode_error_reconnects_witness :
    (runLoop decodeGood handleOk none false "" [] 0 badEventInputs).exit = .decodeFailed ∧
    ((SSEClient.runOn decodeGood handleOk none badEventInputs).reconnectInvoked = true ∧
      (SSEClient.runOn decodeGood handleOk none badEventInputs).bodyClosed = false ∧
      (SSEClient.runOn decodeGood handleOk none badEventInputs).waiterDone = false) :=
  ⟨by decide, sse_decode_error_reconnects decodeGood handleOk none badEventInputs (by decide)⟩

/-- C10 counterexample: in the reachable client state where the goroutine
chain ended through reconnect exhaustion (`maxRetries = 2`, every attempt
failing), the waiter was never signalled; `Close` called there cancels the
context but `waiter.Wait()` blocks forever — `Close` does not return at
all, so it does not return nil in every client state. -/
theorem sse_close_blocks_after_exhaustion :
    exhaustSegment2.chainEnded = true ∧
    exhaustSegment2.waiterSignalled = false ∧
    (SSEClient.CloseModel exhaustSegment2.waiterSignalled false).cancelled = true ∧
    (SSEClient.CloseModel exhaustSegment2.waiterSignalled false).returned = none := by
  refine ⟨rfl, rfl, rfl, rfl⟩

/-- C10 amended: whenever the managing goroutine signals completion,
`Close` returns a nil error; repeated calls are safe — cancellation is
idempotent and a second `Close` again returns nil. -/
theorem sse_close_returns_nil (g c : Bool) (h : g = true) :
    (SSEClient.CloseModel g c).returned = some none ∧
    (SSEClient.CloseModel g c).cancelled = true ∧
    (SSEClient.CloseModel g (SSEClient.CloseModel g c).cancelled).returned = some none := by
  subst h
  exact ⟨rfl, rfl, rfl⟩

/-- Witness for the amended C10: a client whose goroutine has signalled. -/
theorem sse_close_returns_nil_witness :
    (true : Bool) = true ∧
    ((SSEClient.CloseModel true false).returned = some none ∧
      (SSEClient.CloseModel true false).cancelled = true ∧
      (SSEClient.CloseModel true (SSEClient.CloseModel true false).cancelled).returned
        = some none) :=
  ⟨rfl, sse_close_returns_nil true false rfl⟩

end Sabuhp
